import Mathlib

/-!
Shallow embedding of `src/main.py` (portfolio-ai-api): a FastAPI service
answering questions about a personal dataset through an external
text-generation backend, with a greeting short-circuit, a per-session
conversation history persisted to `data/conversation_history.json`, and a
flat ask log persisted to `data/asks.json`.

Python dicts `{"role": ..., "content": ...}` are modelled by `Msg`; the
history file (a JSON object mapping session id to a list of such dicts)
by an association list in insertion order, matching Python dict semantics;
the two JSON files by `Storage` (present / missing / malformed); the Groq
call by a function parameter `backend`; `uuid.uuid4()` and
`datetime.now().isoformat()` by explicit string parameters.  `askCore`
additionally records the list of message lists passed to the backend, so
that "the backend is not invoked" is expressible; `ask`'s observable
behaviour is the rest of the tuple.
-/

namespace PortfolioApi

/-- One `{"role": ..., "content": ...}` dict: both a stored history turn and a
message sent to the backend (the source uses the same dicts for both). -/
structure Msg where
  role : String
  content : String
deriving DecidableEq, Repr

/-- The parsed content of `data/conversation_history.json`: a JSON object
mapping session id to a turn list, in insertion order. -/
abbrev History := List (String × List Msg)

/-- A persisted JSON file as the reading code observes it: parsed content,
`FileNotFoundError`, or `json.JSONDecodeError`. -/
inductive Storage (α : Type) where
  | ok (content : α)
  | missing
  | malformed
deriving DecidableEq, Repr

/-- `read_history` (main.py lines 54-59): parsed file content, or `{}` on
`FileNotFoundError` / `JSONDecodeError`. -/
def read_history (file : Storage History) : History :=
  match file with
  | .ok h => h
  | .missing => []
  | .malformed => []

/-- `write_history` (main.py lines 62-64): replaces the whole file. -/
def write_history (h : History) : Storage History :=
  .ok h

/-- Python `dict.get` on the history object: the value at the first (only)
entry with this key. -/
def dictGet (h : History) (k : String) : Option (List Msg) :=
  (h.find? (fun p => p.1 == k)).map (fun p => p.2)

/-- `history.get(session_id, [])` (main.py line 155). -/
def getSessionHistory (h : History) (k : String) : List Msg :=
  (dictGet h k).getD []

/-- Python `history[session_id] = ...` (main.py line 178): update in place if
the key exists, else append the new entry at the end (dict insertion order). -/
def dictSet (h : History) (k : String) (v : List Msg) : History :=
  if h.any (fun p => p.1 == k) then
    h.map (fun p => if p.1 == k then (k, v) else p)
  else
    h ++ [(k, v)]

/-- One record of `data/asks.json` (the `Ask` pydantic model). -/
structure Ask where
  id : String
  question : String
  date : String
deriving DecidableEq, Repr

/-- `read_asks` (main.py lines 84-89): parsed file content, or `[]` on
`FileNotFoundError` / `JSONDecodeError`. -/
def read_asks (file : Storage (List Ask)) : List Ask :=
  match file with
  | .ok a => a
  | .missing => []
  | .malformed => []

/-- `write_asks` (main.py lines 92-94): replaces the whole file. -/
def write_asks (a : List Ask) : Storage (List Ask) :=
  .ok a

/-- The `language` field: `Literal["en", "fr"]`. -/
inductive Language where
  | en
  | fr
deriving DecidableEq, Repr

/-- The `Query` pydantic model (main.py lines 67-70).  FastAPI rejects a
request whose `question` field is absent or not a string; every string value,
the empty one included, yields a `Query`. -/
structure Query where
  question : String
  language : Language
  session_id : Option String
deriving DecidableEq, Repr

/-- The `Answer` response model (main.py lines 73-75). -/
structure Answer where
  answer : String
  session_id : String
deriving DecidableEq, Repr

/-- The characters Python `str.strip()` removes: exactly CPython's
`str.isspace()` set — U+0009..U+000D, U+001C..U+001F, space, U+0085 (NEL),
U+00A0 (NBSP), U+1680, U+2000..U+200A, U+2028, U+2029, U+202F, U+205F and
U+3000. -/
def isPyWhitespace (c : Char) : Bool :=
  (0x09 ≤ c.toNat && c.toNat ≤ 0x0d) || c == ' ' ||
  (0x1c ≤ c.toNat && c.toNat ≤ 0x1f) || c == '\u0085' || c == '\u00a0' ||
  c == '\u1680' || (0x2000 ≤ c.toNat && c.toNat ≤ 0x200a) ||
  c == '\u2028' || c == '\u2029' || c == '\u202f' || c == '\u205f' ||
  c == '\u3000'

/-- Python `str.lower`'s per-character mapping on the ASCII and Latin-1
ranges (A–Z, À–Þ except ×, Ÿ) and the two compatibility signs that lower
into them (U+212A KELVIN SIGN → k, U+212B ANGSTROM SIGN → å); every other
character is left unchanged.  CPython lowers further scripts, but the
greeting-table phrases consist of ASCII letters, spaces, à, é and ô only,
and the characters above are exactly those whose CPython lowercase lies in
that repertoire (U+0130 İ lowers to the two-character "i̇", which can never
equal a phrase character), so on any question the lowered form equals a
table phrase in this model exactly when it does in CPython. -/
def pyLower (c : Char) : Char :=
  if 'A' ≤ c ∧ c ≤ 'Z' then Char.ofNat (c.toNat + 32)
  else if 'À' ≤ c ∧ c ≤ 'Þ' ∧ c ≠ '×' then
    Char.ofNat (c.toNat + 32)
  else if c = 'Ÿ' then 'ÿ'
  else if c = '\u212a' then 'k'
  else if c = '\u212b' then 'å'
  else c

/-- The punctuation set of `rstrip(".,;!?")` (main.py line 99). -/
def isTrailPunct (c : Char) : Bool :=
  c == '.' || c == ',' || c == ';' || c == '!' || c == '?'

/-- Python `s.strip()` on a character list: drop `p`-characters at both ends. -/
def pyStrip (p : Char → Bool) (s : List Char) : List Char :=
  ((s.dropWhile p).reverse.dropWhile p).reverse

/-- Python `s.rstrip(chars)` on a character list: drop `p`-characters at the
right end. -/
def pyRstrip (p : Char → Bool) (s : List Char) : List Char :=
  (s.reverse.dropWhile p).reverse

/-- `query.question.lower().strip().rstrip(".,;!?")` (main.py line 99):
lower-case the characters, strip whitespace at both ends, then strip the
trailing punctuation. -/
def normalizeQuestion (q : String) : String :=
  String.mk (pyRstrip isTrailPunct (pyStrip isPyWhitespace
    (q.data.map pyLower)))

/-- `greetings_fr` (main.py lines 101-119), in source order. -/
def greetings_fr : List (String × String) :=
  [("merci", "De rien !"),
   ("merci beaucoup", "Avec plaisir !"),
   ("merci bien", "Je vous en prie !"),
   ("bonjour", "Bonjour ! Comment puis-je vous aider ?"),
   ("bonsoir", "Bonsoir ! Comment puis-je vous aider ?"),
   ("salut", "Salut ! Comment puis-je vous aider ?"),
   ("coucou", "Coucou ! Comment puis-je vous aider ?"),
   ("au revoir", "Au revoir !"),
   ("à bientôt", "À bientôt !"),
   ("super", "Ravi de l'entendre !"),
   ("top", "Parfait !"),
   ("bien", "Parfait !"),
   ("génial", "Super !"),
   ("excellent", "Parfait !"),
   ("ok", "Très bien !"),
   ("parfait", "Parfait !"),
   ("cool", "Cool !")]

/-- `greetings_en` (main.py lines 121-142), in source order. -/
def greetings_en : List (String × String) :=
  [("thanks", "You're welcome!"),
   ("thank you", "You're welcome!"),
   ("thank you very much", "You're welcome!"),
   ("hello", "Hello! How can I help you?"),
   ("hi", "Hi! How can I help you?"),
   ("hey", "Hey! How can I help you?"),
   ("good morning", "Good morning! How can I help you?"),
   ("good afternoon", "Good afternoon! How can I help you?"),
   ("good evening", "Good evening! How can I help you?"),
   ("bye", "Goodbye!"),
   ("goodbye", "Goodbye!"),
   ("see you", "See you soon!"),
   ("super", "Glad to hear it!"),
   ("top", "Perfect!"),
   ("good", "Great!"),
   ("awesome", "Awesome!"),
   ("great", "Great!"),
   ("ok", "Alright!"),
   ("perfect", "Perfect!"),
   ("cool", "Cool!")]

/-- `greetings = greetings_fr if query.language == "fr" else greetings_en`
(main.py line 144). -/
def greetingTable : Language → List (String × String)
  | .fr => greetings_fr
  | .en => greetings_en

/-- Python `greetings[question_lower]` after `question_lower in greetings`:
the value at the key, `none` when the key is absent. -/
def lookupGreeting (tbl : List (String × String)) (k : String) : Option String :=
  (tbl.find? (fun p => p.1 == k)).map (fun p => p.2)

/-- `session_id = query.session_id or str(uuid.uuid4())` (main.py line 146):
Python `or` takes the fresh id when the supplied value is `None` or the falsy
empty string. -/
def resolveSessionId (supplied : Option String) (freshSid : String) : String :=
  match supplied with
  | some s => if s == "" then freshSid else s
  | none => freshSid

/-- `SYSTEM_PROMPTS["fr"].format(data=...)` (main.py lines 21-33, 158-160):
the French template with the serialized personal dataset in place of the
format field. -/
def systemPromptFr (data : String) : String :=
  "\n    Tu es Sahaza Nomena, un développeur Web & Mobile d'Antsirabe. Ton objectif est de répondre aux questions des visiteurs de ton portfolio. Utilise la première personne (\"je\").\n\n    Données personnelles sur lesquelles te baser :\n    "
    ++ data ++
    "\n\n    Règles strictes :\n    - Tu dois répondre aux questions du visiteur, mais ne JAMAIS lui en poser en retour.\n    - Tes réponses doivent être basées *uniquement* sur les données personnelles ci-dessus.\n    - Sois clair, naturel, et amical. Tu peux utiliser des emojis pour rendre le ton plus amusant.\n    - Si une information n'est pas dans tes données, réponds simplement : \"C'est une bonne question ! Malheureusement, je n'ai pas la réponse à ça. Désolé ! 😥\"\n    - Tiens compte de l'historique de la conversation pour ne pas te répéter.\n    "

/-- `SYSTEM_PROMPTS["en"].format(data=...)` (main.py lines 34-46, 158-160). -/
def systemPromptEn (data : String) : String :=
  "\n    You are Sahaza Nomena, a Web & Mobile Developer from Antsirabe. Your goal is to answer questions from visitors to your portfolio. Use the first person (\"I\").\n\n    Personal data to base your answers on:\n    "
    ++ data ++
    "\n\n    Strict rules:\n    - You must answer the visitor's questions, but NEVER ask them any in return.\n    - Your answers must be based *solely* on the personal data above.\n    - Be clear, natural, and friendly. You can use emojis to make the tone more fun.\n    - If information is not in your data, simply answer: \"That's a good question! Unfortunately, I don't have the answer to that. Sorry! 😥\"\n    - Take the conversation history into account to avoid repeating yourself.\n    "

/-- `SYSTEM_PROMPTS[query.language].format(data=json.dumps(PERSONAL_DATA, ...))`
(main.py lines 158-160); `data` stands for the serialized dataset. -/
def systemPrompt (lang : Language) (data : String) : String :=
  match lang with
  | .fr => systemPromptFr data
  | .en => systemPromptEn data

/-- Message-list construction (main.py lines 163-166): the system message,
then `session_history[-10:]` (the last ten turns; `List.drop (len - 10)` is
exactly Python's `[-10:]` suffix slice), then the new user message. -/
def buildMessages (system_prompt : String) (session_history : List Msg)
    (question : String) : List Msg :=
  Msg.mk "system" system_prompt ::
    (session_history.drop (session_history.length - 10) ++ [Msg.mk "user" question])

/-- The outcome of `client.chat.completions.create` (main.py lines 169-172):
the completion text, or any transport/auth/quota exception. -/
inductive BackendResult where
  | success (text : String)
  | failure
deriving DecidableEq, Repr

/-- The errors the endpoints surface: a backend exception escaping `ask`
(FastAPI turns it into a server error), and `HTTPException(404)`. -/
inductive ApiError where
  | backendUnavailable
  | notFound
deriving DecidableEq, Repr

/-- The two persisted files as one server state. -/
structure ServerState where
  historyFile : Storage History
  asksFile : Storage (List Ask)
deriving DecidableEq, Repr

deriving instance DecidableEq for Except

/-- What one `POST /ask` request leaves behind: the HTTP-level result, the
two files after the request, and the arguments of every backend call made
(empty exactly when the backend was never invoked). -/
structure AskOutcome where
  result : Except ApiError Answer
  state : ServerState
  backendCalls : List (List Msg)
deriving DecidableEq, Repr

/-- The `ask` endpoint (main.py lines 97-192).  `personalData` is
`json.dumps(PERSONAL_DATA, indent=2)`; `backend` is the Groq client call;
`freshSid` and `newAskId` are the two `str(uuid.uuid4())` draws and `now`
the `datetime.now().isoformat()` value of this request. -/
def askCore (personalData : String) (backend : List Msg → BackendResult)
    (freshSid newAskId now : String) (query : Query) (st : ServerState) :
    AskOutcome :=
  let question_lower := normalizeQuestion query.question
  let greetings := greetingTable query.language
  let session_id := resolveSessionId query.session_id freshSid
  match lookupGreeting greetings question_lower with
  | some reply =>
      { result := .ok (Answer.mk reply session_id), state := st, backendCalls := [] }
  | none =>
      let history := read_history st.historyFile
      let session_history := getSessionHistory history session_id
      let system_prompt := systemPrompt query.language personalData
      let messages := buildMessages system_prompt session_history query.question
      match backend messages with
      | .failure =>
          { result := .error .backendUnavailable, state := st, backendCalls := [messages] }
      | .success answer =>
          let session_history := session_history ++
            [Msg.mk "user" query.question, Msg.mk "assistant" answer]
          let history := dictSet history session_id session_history
          let st := { st with historyFile := write_history history }
          let asks := read_asks st.asksFile
          let new_ask := Ask.mk newAskId query.question now
          let st := { st with asksFile := write_asks (asks ++ [new_ask]) }
          { result := .ok (Answer.mk answer session_id), state := st,
            backendCalls := [messages] }

/-- The session store's append step as `ask` performs it (main.py lines 154,
176-179), for an arbitrary turn list: read the whole file, extend the named
session (creating it if absent), write the whole file back. -/
def appendTurns (file : Storage History) (sid : String) (newTurns : List Msg) :
    Storage History :=
  let history := read_history file
  let session_history := getSessionHistory history sid
  write_history (dictSet history sid (session_history ++ newTurns))

/-- The `GET /asks/{ask_id}` endpoint (main.py lines 200-206): the first
record with this id, else a 404. -/
def get_ask (file : Storage (List Ask)) (ask_id : String) : Except ApiError Ask :=
  match (read_asks file).find? (fun a => a.id == ask_id) with
  | some a => .ok a
  | none => .error .notFound

/-- The `DELETE /asks/{ask_id}` endpoint (main.py lines 209-223): find the
first record with this id; 404 when there is none, else remove that record
and write the file back. -/
def delete_ask (file : Storage (List Ask)) (ask_id : String) :
    Except ApiError (Storage (List Ask)) :=
  let asks := read_asks file
  match asks.find? (fun a => a.id == ask_id) with
  | none => .error .notFound
  | some a => .ok (write_asks (asks.erase a))

/-! ### Dictionary lemmas: Python dict get/set on the history object -/

theorem find?_map_set_self (h : History) (k : String) (v : List Msg)
    (hmem : h.any (fun p => p.1 == k) = true) :
    (h.map (fun p => if p.1 == k then (k, v) else p)).find? (fun p => p.1 == k) =
      some (k, v) := by
  induction h with
  | nil => simp at hmem
  | cons q t ih =>
    by_cases hq : (q.1 == k) = true
    · have hself : (((k, v) : String × List Msg).1 == k) = true := by simp
      rw [List.map_cons, if_pos hq, List.find?_cons, hself]
    · have ht : t.any (fun p => p.1 == k) = true := by
        simp only [List.any_cons, Bool.or_eq_true] at hmem
        exact hmem.resolve_left hq
      have hq' : (q.1 == k) = false := by simpa using hq
      rw [List.map_cons, if_neg hq, List.find?_cons, hq']
      exact ih ht

theorem find?_map_set_ne (h : History) (k k' : String) (v : List Msg)
    (hne : k' ≠ k) :
    (h.map (fun p => if p.1 == k then (k, v) else p)).find? (fun p => p.1 == k') =
      h.find? (fun p => p.1 == k') := by
  induction h with
  | nil => simp
  | cons q t ih =>
    by_cases hq : (q.1 == k) = true
    · have h1 : (((k, v) : String × List Msg).1 == k') = false := by
        simp [Ne.symm hne]
      have h2 : (q.1 == k') = false := by
        have hk : q.1 = k := by simpa using hq
        rw [hk]; simpa using h1
      rw [List.map_cons, if_pos hq, List.find?_cons, List.find?_cons, h1, h2]
      exact ih
    · rw [List.map_cons, if_neg hq, List.find?_cons, List.find?_cons]
      cases hqk : (q.1 == k')
      · exact ih
      · rfl

theorem dictGet_dictSet_self (h : History) (k : String) (v : List Msg) :
    dictGet (dictSet h k v) k = some v := by
  unfold dictGet dictSet
  by_cases hmem : h.any (fun p => p.1 == k) = true
  · rw [if_pos hmem, find?_map_set_self h k v hmem]
    rfl
  · rw [if_neg hmem, List.find?_append]
    have hnone : h.find? (fun p => p.1 == k) = none := by
      rw [List.find?_eq_none]
      intro x hx hpx
      exact hmem (List.any_eq_true.mpr ⟨x, hx, hpx⟩)
    simp [hnone]

theorem dictGet_dictSet_ne (h : History) (k k' : String) (v : List Msg)
    (hne : k' ≠ k) :
    dictGet (dictSet h k v) k' = dictGet h k' := by
  unfold dictGet dictSet
  by_cases hmem : h.any (fun p => p.1 == k) = true
  · rw [if_pos hmem, find?_map_set_ne h k k' v hne]
  · rw [if_neg hmem, List.find?_append]
    have h1 : ([(k, v)].find? (fun p => p.1 == k') : Option (String × List Msg)) = none := by
      simp [beq_eq_false_iff_ne, Ne.symm hne]
    rw [h1]
    cases h.find? (fun p => p.1 == k') <;> rfl

theorem getSessionHistory_dictSet_self (h : History) (k : String) (v : List Msg) :
    getSessionHistory (dictSet h k v) k = v := by
  unfold getSessionHistory
  rw [dictGet_dictSet_self]
  rfl

/-! ### Greeting-table lookup -/

theorem lookupGreeting_of_mem (tbl : List (String × String))
    (hnd : (tbl.map Prod.fst).Nodup) (phrase reply : String)
    (hmem : (phrase, reply) ∈ tbl) :
    lookupGreeting tbl phrase = some reply := by
  induction tbl with
  | nil => simp at hmem
  | cons q t ih =>
    rw [List.map_cons, List.nodup_cons] at hnd
    rcases List.mem_cons.mp hmem with heq | hmem'
    · subst heq
      unfold lookupGreeting
      have hself : (((phrase, reply) : String × String).1 == phrase) = true := by simp
      rw [List.find?_cons, hself]
      rfl
    · by_cases hq : (q.1 == phrase) = true
      · exfalso
        have : q.1 ∈ t.map Prod.fst := by
          have : phrase ∈ t.map Prod.fst := List.mem_map_of_mem Prod.fst hmem'
          simpa [show q.1 = phrase from by simpa using hq]
        exact hnd.1 this
      · have hq' : (q.1 == phrase) = false := by simpa using hq
        unfold lookupGreeting at ih ⊢
        rw [List.find?_cons, hq']
        exact ih hnd.2 hmem'

/-! ### Unfolding `askCore` per branch -/

theorem askCore_greeting (pd : String) (backend : List Msg → BackendResult)
    (freshSid newAskId now : String) (query : Query) (st : ServerState)
    (reply : String)
    (hg : lookupGreeting (greetingTable query.language)
        (normalizeQuestion query.question) = some reply) :
    askCore pd backend freshSid newAskId now query st =
      { result := .ok (Answer.mk reply (resolveSessionId query.session_id freshSid)),
        state := st, backendCalls := [] } := by
  simp only [askCore, hg]

theorem askCore_backend_failure (pd : String) (backend : List Msg → BackendResult)
    (freshSid newAskId now : String) (query : Query) (st : ServerState)
    (hng : lookupGreeting (greetingTable query.language)
        (normalizeQuestion query.question) = none)
    (hfail : backend (buildMessages (systemPrompt query.language pd)
        (getSessionHistory (read_history st.historyFile)
          (resolveSessionId query.session_id freshSid)) query.question) = .failure) :
    askCore pd backend freshSid newAskId now query st =
      { result := .error .backendUnavailable, state := st,
        backendCalls := [buildMessages (systemPrompt query.language pd)
          (getSessionHistory (read_history st.historyFile)
            (resolveSessionId query.session_id freshSid)) query.question] } := by
  simp only [askCore, hng, hfail]

theorem askCore_backend_success (pd : String) (backend : List Msg → BackendResult)
    (freshSid newAskId now : String) (query : Query) (st : ServerState)
    (ans : String)
    (hng : lookupGreeting (greetingTable query.language)
        (normalizeQuestion query.question) = none)
    (hsucc : backend (buildMessages (systemPrompt query.language pd)
        (getSessionHistory (read_history st.historyFile)
          (resolveSessionId query.session_id freshSid)) query.question) =
        .success ans) :
    askCore pd backend freshSid newAskId now query st =
      { result := .ok (Answer.mk ans (resolveSessionId query.session_id freshSid)),
        state :=
          { historyFile := write_history (dictSet (read_history st.historyFile)
              (resolveSessionId query.session_id freshSid)
              (getSessionHistory (read_history st.historyFile)
                  (resolveSessionId query.session_id freshSid) ++
                [Msg.mk "user" query.question, Msg.mk "assistant" ans])),
            asksFile := write_asks (read_asks st.asksFile ++
              [Ask.mk newAskId query.question now]) },
        backendCalls := [buildMessages (systemPrompt query.language pd)
          (getSessionHistory (read_history st.historyFile)
            (resolveSessionId query.session_id freshSid)) query.question] } := by
  simp only [askCore, hng, hsucc]

theorem read_history_write_history (h : History) :
    read_history (write_history h) = h := rfl

theorem read_asks_write_asks (a : List Ask) :
    read_asks (write_asks a) = a := rfl

/-! ### The claims -/

/-- C1: for every stored session turn history and every non-greeting
question, the message list handed to the backend is exactly the system
instruction with the personal dataset embedded, followed by the last
min(H, 10) turns of the session history — an order-preserving suffix, never
reordered — followed by the new user turn; so for H > 10 at most 10 history
turns plus the system instruction plus the new question. -/
theorem ask_context_window_bound (personalData : String)
    (backend : List Msg → BackendResult) (freshSid newAskId now : String)
    (query : Query) (st : ServerState)
    (hng : lookupGreeting (greetingTable query.language)
        (normalizeQuestion query.question) = none) :
    ∃ kept : List Msg,
      (askCore personalData backend freshSid newAskId now query st).backendCalls =
        [Msg.mk "system" (systemPrompt query.language personalData) ::
          (kept ++ [Msg.mk "user" query.question])] ∧
      kept.length = min (getSessionHistory (read_history st.historyFile)
          (resolveSessionId query.session_id freshSid)).length 10 ∧
      kept <:+ getSessionHistory (read_history st.historyFile)
          (resolveSessionId query.session_id freshSid) := by
  have htrace : (askCore personalData backend freshSid newAskId now query
      st).backendCalls =
      [buildMessages (systemPrompt query.language personalData)
        (getSessionHistory (read_history st.historyFile)
          (resolveSessionId query.session_id freshSid)) query.question] := by
    cases hb : backend (buildMessages (systemPrompt query.language personalData)
        (getSessionHistory (read_history st.historyFile)
          (resolveSessionId query.session_id freshSid)) query.question) with
    | success ans =>
        rw [askCore_backend_success personalData backend freshSid newAskId now
          query st ans hng hb]
    | failure =>
        rw [askCore_backend_failure personalData backend freshSid newAskId now
          query st hng hb]
  refine ⟨(getSessionHistory (read_history st.historyFile)
      (resolveSessionId query.session_id freshSid)).drop
      ((getSessionHistory (read_history st.historyFile)
        (resolveSessionId query.session_id freshSid)).length - 10),
    ?_, ?_, ?_⟩
  · rw [htrace]
    rfl
  · rw [List.length_drop]
    omega
  · exact List.drop_suffix _ _

/-- C1 witness: a concrete non-greeting request with a stored 12-turn
history. -/
theorem ask_context_window_bound_witness :
    ∃ kept : List Msg,
      (askCore "DATA" (fun _ => .success "ANS") "sid-1" "ask-1" "2026-01-01"
          (Query.mk "list your skills" .en none)
          (ServerState.mk (.ok [("sid-1",
            (List.range 12).map (fun i => Msg.mk "user" (toString i)))])
            .missing)).backendCalls =
        [Msg.mk "system" (systemPrompt .en "DATA") ::
          (kept ++ [Msg.mk "user" "list your skills"])] ∧
      kept.length = min (getSessionHistory (read_history
          (.ok [("sid-1", (List.range 12).map (fun i => Msg.mk "user" (toString i)))]))
          (resolveSessionId none "sid-1")).length 10 ∧
      kept <:+ getSessionHistory (read_history
          (.ok [("sid-1", (List.range 12).map (fun i => Msg.mk "user" (toString i)))]))
          (resolveSessionId none "sid-1") :=
  ask_context_window_bound "DATA" (fun _ => .success "ANS") "sid-1" "ask-1"
    "2026-01-01" (Query.mk "list your skills" .en none)
    (ServerState.mk (.ok [("sid-1",
      (List.range 12).map (fun i => Msg.mk "user" (toString i)))]) .missing)
    (by decide)

/-- C2: for every non-greeting request, when the backend call fails the
request fails with the backend-unavailable error and both persisted files are
exactly as before — no user turn is recorded without its paired assistant
turn. -/
theorem ask_backend_failure_preserves_state (personalData : String)
    (backend : List Msg → BackendResult) (freshSid newAskId now : String)
    (query : Query) (st : ServerState)
    (hng : lookupGreeting (greetingTable query.language)
        (normalizeQuestion query.question) = none)
    (hfail : backend (buildMessages (systemPrompt query.language personalData)
        (getSessionHistory (read_history st.historyFile)
          (resolveSessionId query.session_id freshSid)) query.question) =
        .failure) :
    (askCore personalData backend freshSid newAskId now query st).result =
      .error .backendUnavailable ∧
    (askCore personalData backend freshSid newAskId now query st).state = st := by
  rw [askCore_backend_failure personalData backend freshSid newAskId now query
    st hng hfail]
  exact ⟨rfl, rfl⟩

/-- C2 witness: a failing backend on a concrete non-greeting request leaves
the concrete state untouched. -/
theorem ask_backend_failure_preserves_state_witness :
    (askCore "DATA" (fun _ => .failure) "sid-1" "ask-1" "2026-01-01"
        (Query.mk "list your skills" .fr none)
        (ServerState.mk .missing (.ok [Ask.mk "i0" "q0" "d0"]))).result =
      .error .backendUnavailable ∧
    (askCore "DATA" (fun _ => .failure) "sid-1" "ask-1" "2026-01-01"
        (Query.mk "list your skills" .fr none)
        (ServerState.mk .missing (.ok [Ask.mk "i0" "q0" "d0"]))).state =
      ServerState.mk .missing (.ok [Ask.mk "i0" "q0" "d0"]) :=
  ask_backend_failure_preserves_state "DATA" (fun _ => .failure) "sid-1"
    "ask-1" "2026-01-01" (Query.mk "list your skills" .fr none)
    (ServerState.mk .missing (.ok [Ask.mk "i0" "q0" "d0"])) (by decide) rfl

/-- C3: for every supported language and every phrase of its greeting table,
a question whose normalized form (lowercase, trimmed, trailing punctuation
stripped) equals the phrase returns exactly the mapped canned reply and a
session id, with no backend call and both stores untouched; a question whose
normalized form matches no entry falls through to the full pipeline (the
backend is invoked). -/
theorem greeting_match_short_circuits (personalData : String)
    (backend : List Msg → BackendResult) (freshSid newAskId now : String)
    (L : Language) (sid : Option String) (st : ServerState) :
    (∀ phrase reply question, (phrase, reply) ∈ greetingTable L →
        normalizeQuestion question = phrase →
        askCore personalData backend freshSid newAskId now
            (Query.mk question L sid) st =
          AskOutcome.mk (.ok (Answer.mk reply (resolveSessionId sid freshSid)))
            st []) ∧
    (∀ question,
        lookupGreeting (greetingTable L) (normalizeQuestion question) = none →
        (askCore personalData backend freshSid newAskId now
            (Query.mk question L sid) st).backendCalls ≠ []) := by
  constructor
  · intro phrase reply question hmem hnorm
    have hnd : ((greetingTable L).map Prod.fst).Nodup := by
      cases L <;> decide
    have hg : lookupGreeting (greetingTable L)
        (normalizeQuestion question) = some reply := by
      rw [hnorm]
      exact lookupGreeting_of_mem _ hnd _ _ hmem
    exact askCore_greeting personalData backend freshSid newAskId now
      (Query.mk question L sid) st reply hg
  · intro question hng
    cases hb : backend (buildMessages (systemPrompt L personalData)
        (getSessionHistory (read_history st.historyFile)
          (resolveSessionId sid freshSid)) question) with
    | success ans =>
        rw [askCore_backend_success personalData backend freshSid newAskId now
          (Query.mk question L sid) st ans hng hb]
        simp
    | failure =>
        rw [askCore_backend_failure personalData backend freshSid newAskId now
          (Query.mk question L sid) st hng hb]
        simp

/-- C3 witness: the concrete French courtesy "À BIENTÔT!" with a leading
no-break space — exercising accented lower-casing and Unicode whitespace
stripping — returns the canned reply without touching the backend or the
stores. -/
theorem greeting_match_short_circuits_witness :
    askCore "DATA" (fun _ => .failure) "sid-1" "ask-1" "2026-01-01"
        (Query.mk "\u00a0À BIENTÔT!" .fr none)
        (ServerState.mk .missing .missing) =
      AskOutcome.mk (.ok (Answer.mk "À bientôt !" (resolveSessionId none "sid-1")))
        (ServerState.mk .missing .missing) [] :=
  (greeting_match_short_circuits "DATA" (fun _ => .failure) "sid-1" "ask-1"
      "2026-01-01" .fr none (ServerState.mk .missing .missing)).1
    "à bientôt" "À bientôt !" "\u00a0À BIENTÔT!" (by decide) (by decide)

/-- C4: for every non-greeting request on which the backend succeeds, exactly
the user turn then the assistant turn are appended to the named session
(created if absent), one ask record with the question and the timestamp is
appended to the ask log, and the response is the answer with the session
id. -/
theorem ask_success_records_turns_and_log (personalData : String)
    (backend : List Msg → BackendResult) (freshSid newAskId now : String)
    (query : Query) (st : ServerState) (ans : String)
    (hng : lookupGreeting (greetingTable query.language)
        (normalizeQuestion query.question) = none)
    (hsucc : backend (buildMessages (systemPrompt query.language personalData)
        (getSessionHistory (read_history st.historyFile)
          (resolveSessionId query.session_id freshSid)) query.question) =
        .success ans) :
    (askCore personalData backend freshSid newAskId now query st).result =
      .ok (Answer.mk ans (resolveSessionId query.session_id freshSid)) ∧
    getSessionHistory (read_history (askCore personalData backend freshSid
        newAskId now query st).state.historyFile)
        (resolveSessionId query.session_id freshSid) =
      getSessionHistory (read_history st.historyFile)
          (resolveSessionId query.session_id freshSid) ++
        [Msg.mk "user" query.question, Msg.mk "assistant" ans] ∧
    read_asks (askCore personalData backend freshSid newAskId now query
        st).state.asksFile =
      read_asks st.asksFile ++ [Ask.mk newAskId query.question now] := by
  rw [askCore_backend_success personalData backend freshSid newAskId now query
    st ans hng hsucc]
  refine ⟨rfl, ?_, rfl⟩
  rw [read_history_write_history, getSessionHistory_dictSet_self]

/-- C4 witness: a successful backend call on a concrete non-greeting request
appends the turn pair and the ask record. -/
theorem ask_success_records_turns_and_log_witness :
    (askCore "DATA" (fun _ => .success "ANS") "sid-1" "ask-1" "2026-01-01"
        (Query.mk "list your skills" .en (some "s0"))
        (ServerState.mk .missing .missing)).result =
      .ok (Answer.mk "ANS" (resolveSessionId (some "s0") "sid-1")) ∧
    getSessionHistory (read_history (askCore "DATA" (fun _ => .success "ANS")
        "sid-1" "ask-1" "2026-01-01" (Query.mk "list your skills" .en (some "s0"))
        (ServerState.mk .missing .missing)).state.historyFile)
        (resolveSessionId (some "s0") "sid-1") =
      getSessionHistory (read_history (Storage.missing : Storage History))
          (resolveSessionId (some "s0") "sid-1") ++
        [Msg.mk "user" "list your skills", Msg.mk "assistant" "ANS"] ∧
    read_asks (askCore "DATA" (fun _ => .success "ANS") "sid-1" "ask-1"
        "2026-01-01" (Query.mk "list your skills" .en (some "s0"))
        (ServerState.mk .missing .missing)).state.asksFile =
      read_asks (Storage.missing : Storage (List Ask)) ++
        [Ask.mk "ask-1" "list your skills" "2026-01-01"] :=
  ask_success_records_turns_and_log "DATA" (fun _ => .success "ANS") "sid-1"
    "ask-1" "2026-01-01" (Query.mk "list your skills" .en (some "s0"))
    (ServerState.mk .missing .missing) "ANS" (by decide) rfl

/-- C5: session history round-trip — appending a turn sequence for a session
and then reading that session returns the turns in the exact order appended,
after any previously stored turns of the session. -/
theorem session_history_roundtrip (file : Storage History) (sid : String)
    (newTurns : List Msg) :
    getSessionHistory (read_history (appendTurns file sid newTurns)) sid =
      getSessionHistory (read_history file) sid ++ newTurns := by
  unfold appendTurns
  rw [read_history_write_history, getSessionHistory_dictSet_self]

/-- C6: reading never fails the caller — a missing or malformed history file
reads as the empty collection, a missing or malformed ask file reads as the
empty list, and the history of a session id that is not a key of the
collection is the empty turn sequence. -/
theorem corrupt_storage_self_heals :
    read_history .missing = [] ∧ read_history .malformed = [] ∧
    read_asks .missing = [] ∧ read_asks .malformed = [] ∧
    ∀ (h : History) (sid : String), sid ∉ h.map Prod.fst →
      getSessionHistory h sid = [] := by
  refine ⟨rfl, rfl, rfl, rfl, ?_⟩
  intro h sid hsid
  unfold getSessionHistory dictGet
  have hnone : h.find? (fun p => p.1 == sid) = none := by
    rw [List.find?_eq_none]
    intro x hx hpx
    exact hsid (by
      have : x.1 = sid := by simpa using hpx
      exact this ▸ List.mem_map_of_mem Prod.fst hx)
  rw [hnone]
  rfl

/-- C6 witness: an unknown session id on a concrete one-session collection
reads as the empty turn sequence. -/
theorem corrupt_storage_self_heals_witness :
    getSessionHistory [("sid-a", [Msg.mk "user" "q"])] "sid-b" = [] :=
  corrupt_storage_self_heals.2.2.2.2 [("sid-a", [Msg.mk "user" "q"])] "sid-b"
    (by decide)

/-- C7: for an ask-record id not in the log, get-by-id and delete-by-id both
fail with not-found; for an id present in the log (whose generated ids are
unique), deleting it twice in a row succeeds the first time and fails with
not-found the second time. -/
theorem ask_log_absence_consistency (file : Storage (List Ask))
    (ask_id : String) :
    ((∀ a ∈ read_asks file, a.id ≠ ask_id) →
        get_ask file ask_id = .error .notFound ∧
        delete_ask file ask_id = .error .notFound) ∧
    (((read_asks file).map (fun a => a.id)).Nodup →
        ∀ a ∈ read_asks file, a.id = ask_id →
          ∃ file2, delete_ask file ask_id = .ok file2 ∧
            delete_ask file2 ask_id = .error .notFound) := by
  constructor
  · intro habs
    have hnone : (read_asks file).find? (fun x => x.id == ask_id) = none := by
      rw [List.find?_eq_none]
      intro x hx hpx
      exact habs x hx (by simpa using hpx)
    exact ⟨by simp only [get_ask, hnone], by simp only [delete_ask, hnone]⟩
  · intro hnd a ha haid
    have hsome : ((read_asks file).find? (fun x => x.id == ask_id)).isSome :=
      List.find?_isSome.mpr ⟨a, ha, by simp [haid]⟩
    obtain ⟨b, hb⟩ := Option.isSome_iff_exists.mp hsome
    have hbmem : b ∈ read_asks file := List.mem_of_find?_eq_some hb
    have hbid : b.id = ask_id := by simpa using List.find?_some hb
    refine ⟨write_asks ((read_asks file).erase b), ?_, ?_⟩
    · simp only [delete_ask, hb]
    · have hnodup : (read_asks file).Nodup := List.Nodup.of_map _ hnd
      have hnone : (read_asks (write_asks ((read_asks file).erase b))).find?
          (fun x => x.id == ask_id) = none := by
        rw [read_asks_write_asks, List.find?_eq_none]
        intro x hx hpx
        have hxb : x ≠ b ∧ x ∈ read_asks file := hnodup.mem_erase_iff.mp hx
        have hxid : x.id = ask_id := by simpa using hpx
        exact hxb.1 (List.inj_on_of_nodup_map hnd hxb.2 hbmem
          (hxid.trans hbid.symm))
      simp only [delete_ask, hnone]

/-- C7 witness: a concrete one-record log — get and delete of an absent id
both fail, and deleting the present id twice succeeds then fails. -/
theorem ask_log_absence_consistency_witness :
    (get_ask (.ok [Ask.mk "id-1" "q" "d"]) "id-z" = .error .notFound ∧
      delete_ask (.ok [Ask.mk "id-1" "q" "d"]) "id-z" = .error .notFound) ∧
    ∃ file2, delete_ask (.ok [Ask.mk "id-1" "q" "d"]) "id-1" = .ok file2 ∧
      delete_ask file2 "id-1" = .error .notFound :=
  ⟨(ask_log_absence_consistency (.ok [Ask.mk "id-1" "q" "d"]) "id-z").1
      (by decide),
    (ask_log_absence_consistency (.ok [Ask.mk "id-1" "q" "d"]) "id-1").2
      (by decide) (Ask.mk "id-1" "q" "d") (by decide) (by decide)⟩

/-- C8 counterexample: the claim says a successful non-greeting response
carries the caller-supplied session id whenever one was given; supplying the
empty string yields the freshly generated id instead (Python `or` treats the
empty string as falsy), so the response id differs from the supplied one. -/
theorem session_id_claim_counterexample :
    (askCore "DATA" (fun _ => .success "ANS") "3f2a" "ask-1" "2026-01-01"
        (Query.mk "list your skills" .en (some ""))
        (ServerState.mk .missing .missing)).result =
      .ok (Answer.mk "ANS" "3f2a") ∧ ("3f2a" : String) ≠ "" := by
  exact ⟨by decide, by decide⟩

/-- C8 amended: a successful non-greeting response carries a non-empty
session id — the caller-supplied id when a non-empty one was given, and
otherwise (id absent or empty) the freshly generated id, which differs from
every previously issued id. -/
theorem session_id_resolution (personalData : String)
    (backend : List Msg → BackendResult) (freshSid newAskId now : String)
    (query : Query) (st : ServerState) (ans : String) (issued : List String)
    (hfresh : freshSid ≠ "") (hnew : freshSid ∉ issued)
    (hng : lookupGreeting (greetingTable query.language)
        (normalizeQuestion query.question) = none)
    (hsucc : backend (buildMessages (systemPrompt query.language personalData)
        (getSessionHistory (read_history st.historyFile)
          (resolveSessionId query.session_id freshSid)) query.question) =
        .success ans) :
    (askCore personalData backend freshSid newAskId now query st).result =
      .ok (Answer.mk ans (resolveSessionId query.session_id freshSid)) ∧
    resolveSessionId query.session_id freshSid ≠ "" ∧
    (∀ s, query.session_id = some s → s ≠ "" →
      resolveSessionId query.session_id freshSid = s) ∧
    (query.session_id = none ∨ query.session_id = some "" →
      resolveSessionId query.session_id freshSid = freshSid ∧
      resolveSessionId query.session_id freshSid ∉ issued) := by
  refine ⟨?_, ?_, ?_, ?_⟩
  · rw [askCore_backend_success personalData backend freshSid newAskId now
      query st ans hng hsucc]
  · cases hq : query.session_id with
    | none => simpa [resolveSessionId] using hfresh
    | some s =>
      by_cases hs : (s == "") = true
      · simpa [resolveSessionId, hs] using hfresh
      · have hs' : (s == "") = false := by simpa using hs
        have hne : s ≠ "" := by simpa using hs
        simpa [resolveSessionId, hs'] using hne
  · intro s hqs hsne
    have hs' : (s == "") = false := by simpa using hsne
    rw [hqs]
    simp [resolveSessionId, hs']
  · intro hcase
    rcases hcase with hq | hq <;> rw [hq]
    · exact ⟨by simp [resolveSessionId], by simpa [resolveSessionId] using hnew⟩
    · exact ⟨by simp [resolveSessionId], by simpa [resolveSessionId] using hnew⟩

/-- C8 witness: with no supplied id and a fresh id unused so far, a concrete
successful request returns that fresh non-empty id. -/
theorem session_id_resolution_witness :
    (askCore "DATA" (fun _ => .success "ANS") "3f2a" "ask-1" "2026-01-01"
        (Query.mk "list your skills" .en none)
        (ServerState.mk .missing .missing)).result =
      .ok (Answer.mk "ANS" (resolveSessionId none "3f2a")) ∧
    resolveSessionId none "3f2a" ≠ "" ∧
    (∀ s, (none : Option String) = some s → s ≠ "" →
      resolveSessionId none "3f2a" = s) ∧
    ((none : Option String) = none ∨ (none : Option String) = some "" →
      resolveSessionId none "3f2a" = "3f2a" ∧
      resolveSessionId none "3f2a" ∉ ["older-id"]) :=
  session_id_resolution "DATA" (fun _ => .success "ANS") "3f2a" "ask-1"
    "2026-01-01" (Query.mk "list your skills" .en none)
    (ServerState.mk .missing .missing) "ANS" ["older-id"] (by decide)
    (by decide) (by decide) rfl

/-- C9 counterexample: the claim says an empty question fails with a
validation error and touches neither the backend nor the stores; on the code
an empty question is processed as an ordinary non-greeting question — the
request succeeds, the backend is invoked and both stores are written. -/
theorem empty_question_claim_counterexample :
    (askCore "DATA" (fun _ => .success "ANS") "sid-1" "ask-1" "2026-01-01"
        (Query.mk "" .en none) (ServerState.mk .missing .missing)).result =
      .ok (Answer.mk "ANS" "sid-1") ∧
    (askCore "DATA" (fun _ => .success "ANS") "sid-1" "ask-1" "2026-01-01"
        (Query.mk "" .en none)
        (ServerState.mk .missing .missing)).backendCalls ≠ [] ∧
    (askCore "DATA" (fun _ => .success "ANS") "sid-1" "ask-1" "2026-01-01"
        (Query.mk "" .en none) (ServerState.mk .missing .missing)).state ≠
      ServerState.mk .missing .missing := by
  exact ⟨by decide, by decide, by decide⟩

/-- C9 amended: a request whose question string is empty is not rejected —
no emptiness validation exists (only a missing or non-string `question` field
fails request validation) — and it matches no greeting, so it falls through
to the full pipeline and the backend is invoked. -/
theorem empty_question_falls_through (personalData : String)
    (backend : List Msg → BackendResult) (freshSid newAskId now : String)
    (L : Language) (sid : Option String) (st : ServerState) :
    (askCore personalData backend freshSid newAskId now (Query.mk "" L sid)
      st).backendCalls ≠ [] := by
  have hng : lookupGreeting (greetingTable L) (normalizeQuestion "") = none := by
    cases L <;> decide
  cases hb : backend (buildMessages (systemPrompt L personalData)
      (getSessionHistory (read_history st.historyFile)
        (resolveSessionId sid freshSid)) "") with
  | success ans =>
      rw [askCore_backend_success personalData backend freshSid newAskId now
        (Query.mk "" L sid) st ans hng hb]
      simp
  | failure =>
      rw [askCore_backend_failure personalData backend freshSid newAskId now
        (Query.mk "" L sid) st hng hb]
      simp

/-- C10: frame property of the successful append — every session id other
than the request's maps to exactly the turn list it had before, and the
request session's previous turns persist as a prefix of its new turn list. -/
theorem ask_success_frame (personalData : String)
    (backend : List Msg → BackendResult) (freshSid newAskId now : String)
    (query : Query) (st : ServerState) (ans : String)
    (hng : lookupGreeting (greetingTable query.language)
        (normalizeQuestion query.question) = none)
    (hsucc : backend (buildMessages (systemPrompt query.language personalData)
        (getSessionHistory (read_history st.historyFile)
          (resolveSessionId query.session_id freshSid)) query.question) =
        .success ans) :
    (∀ sid2, sid2 ≠ resolveSessionId query.session_id freshSid →
        dictGet (read_history (askCore personalData backend freshSid newAskId
            now query st).state.historyFile) sid2 =
          dictGet (read_history st.historyFile) sid2) ∧
    getSessionHistory (read_history st.historyFile)
        (resolveSessionId query.session_id freshSid) <+:
      getSessionHistory (read_history (askCore personalData backend freshSid
          newAskId now query st).state.historyFile)
        (resolveSessionId query.session_id freshSid) := by
  rw [askCore_backend_success personalData backend freshSid newAskId now query
    st ans hng hsucc]
  constructor
  · intro sid2 hne
    rw [read_history_write_history]
    exact dictGet_dictSet_ne _ _ _ _ hne
  · rw [read_history_write_history, getSessionHistory_dictSet_self]
    exact List.prefix_append _ _

/-- C10 witness: on a concrete two-session collection, a successful request
on one session leaves the other session's turn list untouched and keeps the
old turns as a prefix. -/
theorem ask_success_frame_witness :
    dictGet (read_history (askCore "DATA" (fun _ => .success "ANS") "sid-1"
        "ask-1" "2026-01-01" (Query.mk "list your skills" .en (some "s0"))
        (ServerState.mk (.ok [("other", [Msg.mk "user" "o"]),
          ("s0", [Msg.mk "user" "p"])]) .missing)).state.historyFile) "other" =
      dictGet (read_history (.ok [("other", [Msg.mk "user" "o"]),
        ("s0", [Msg.mk "user" "p"])])) "other" ∧
    getSessionHistory (read_history (.ok [("other", [Msg.mk "user" "o"]),
        ("s0", [Msg.mk "user" "p"])])) (resolveSessionId (some "s0") "sid-1") <+:
      getSessionHistory (read_history (askCore "DATA" (fun _ => .success "ANS")
          "sid-1" "ask-1" "2026-01-01"
          (Query.mk "list your skills" .en (some "s0"))
          (ServerState.mk (.ok [("other", [Msg.mk "user" "o"]),
            ("s0", [Msg.mk "user" "p"])]) .missing)).state.historyFile)
        (resolveSessionId (some "s0") "sid-1") :=
  ⟨(ask_success_frame "DATA" (fun _ => .success "ANS") "sid-1" "ask-1"
      "2026-01-01" (Query.mk "list your skills" .en (some "s0"))
      (ServerState.mk (.ok [("other", [Msg.mk "user" "o"]),
        ("s0", [Msg.mk "user" "p"])]) .missing) "ANS" (by decide) rfl).1
      "other" (by decide),
    (ask_success_frame "DATA" (fun _ => .success "ANS") "sid-1" "ask-1"
      "2026-01-01" (Query.mk "list your skills" .en (some "s0"))
      (ServerState.mk (.ok [("other", [Msg.mk "user" "o"]),
        ("s0", [Msg.mk "user" "p"])]) .missing) "ANS" (by decide) rfl).2⟩

end PortfolioApi
